import Mathlib

/-!
Verification of the `hf_dl` command-line utility (files `hf_dl.py` /
`hf_download.py`): a shallow embedding of its URL parser
(`parse_hf_url`), its download orchestration wrapper
(`download_hf_directory`), its CLI entry point (`main`), and the
CPython `posixpath` functions (`join`, `expanduser`, `abspath`,
`normpath`) that the wrapper calls, together with theorems settling
the specification's claims about them.

Python strings are modelled as Lean `String`s; the string helpers
below mirror the exact Python primitives the source uses
(`str.strip`, `str.split`, `str.join`, `str.replace`,
`str.startswith`, `str.endswith`), implemented by structural
recursion over the character list so that every definition evaluates
by kernel reduction.
-/

namespace HfDl

/-- Python `s.strip(c)` for a one-character strip set: removes every
leading and trailing occurrence of the character `c`. -/
def pyStrip (c : Char) (s : String) : String :=
  String.mk (((s.data.dropWhile (fun x => x == c)).reverse.dropWhile
    (fun x => x == c)).reverse)

/-- Auxiliary accumulator loop for `pySplitChar`. -/
def splitCharAux (c : Char) : List Char → List Char → List String
  | [], acc => [String.mk acc.reverse]
  | x :: xs, acc =>
    if x == c then String.mk acc.reverse :: splitCharAux c xs []
    else splitCharAux c xs (x :: acc)

/-- Python `s.split(c)` for a one-character separator: splits on every
occurrence of `c`, keeping empty pieces; `"".split(c) = [""]`. -/
def pySplitChar (c : Char) (s : String) : List String :=
  splitCharAux c s.data []

/-- Python `sep.join(parts)`. -/
def pyJoin (sep : String) : List String → String
  | [] => ""
  | [a] => a
  | a :: rest => a ++ sep ++ pyJoin sep rest

/-- Python `s.replace(old, new)` for a one-character pattern and a
one-character replacement: maps every occurrence of `old` to `new`. -/
def pyReplaceChar (old new : Char) (s : String) : String :=
  String.mk (s.data.map fun x => if x == old then new else x)

/-- Python `s.startswith(p)`. -/
def pyStartsWith (p s : String) : Bool :=
  p.data.isPrefixOf s.data

/-- Python `s.endswith(p)`. -/
def pyEndsWith (p s : String) : Bool :=
  p.data.reverse.isPrefixOf s.data.reverse

/-- Python `s.rstrip(c)` for a one-character strip set. -/
def pyRstrip (c : Char) (s : String) : String :=
  String.mk (s.data.reverse.dropWhile (fun x => x == c)).reverse

/-- The result of Python `urllib.parse.urlparse` applied to the URL
string: its six components.  `parse_hf_url` reads only `netloc` and
`path`. -/
structure ParsedUrl where
  scheme : String
  netloc : String
  path : String
  params : String
  query : String
  fragment : String
deriving DecidableEq, Repr

/-- `path_parts = parsed.path.strip("/").split("/")`
(line 72 of `hf_dl.py`). -/
def pathParts (path : String) : List String :=
  pySplitChar '/' (pyStrip '/' path)

/-- The body of `parse_hf_url` after `urlparse`, as a function of the
two components it reads (`parsed.netloc`, `parsed.path`).  A raised
`ValueError` is modelled as `Except.error` carrying the message
(lines 70–92 of `hf_dl.py`). -/
def parseHfCore (netloc path : String) : Except String (String × String) :=
  if netloc = "huggingface.co" then
    let path_parts := pathParts path
    if path_parts.length < 2 then
      Except.error "Invalid Hugging Face URL format"
    else
      let repo_id := path_parts.getD 0 "" ++ "/" ++ path_parts.getD 1 ""
      let directory :=
        if 4 < path_parts.length ∧ path_parts.getD 2 "" = "tree" then
          pyJoin "/" (path_parts.drop 4)
        else if 2 < path_parts.length then
          pyJoin "/" (path_parts.drop 2)
        else
          ""
      Except.ok (repo_id, directory)
  else
    Except.error "URL must be from huggingface.co"

/-- `parse_hf_url` (lines 62–92 of `hf_dl.py`): extracts
`(repo_id, directory)` from the parsed URL or raises `ValueError`. -/
def parse_hf_url (u : ParsedUrl) : Except String (String × String) :=
  parseHfCore u.netloc u.path

/-- CPython `posixpath.join(a, b)` for two arguments (separator `/`):
if `b` is absolute it replaces `a`; otherwise a `/` is inserted unless
`a` is empty or already ends with `/`. -/
def osPathJoin (a b : String) : String :=
  if pyStartsWith "/" b then b
  else if a = "" ∨ pyEndsWith "/" a then a ++ b
  else a ++ "/" ++ b

/-- CPython `posixpath.expanduser(path)`.  The process environment is
a parameter: `home` is the resolved home directory of the current user
(`None` when neither `HOME` nor the password database yields one) and
`userdb` maps user names to home directories (`pwd.getpwnam`).  A
failed lookup returns the path unchanged. -/
def osPathExpanduser (home : Option String) (userdb : List (String × String))
    (path : String) : String :=
  if pyStartsWith "~" path then
    let tail := path.data.drop 1
    let nameChars := tail.takeWhile (fun x => x ≠ '/')
    let rest := tail.drop nameChars.length
    let userhome :=
      if nameChars.isEmpty then home
      else userdb.lookup (String.mk nameChars)
    match userhome with
    | none => path
    | some uh =>
      let r := pyRstrip '/' uh ++ String.mk rest
      if r = "" then "/" else r
  else
    path

/-- CPython's `return path or '.'` at the end of `posixpath.normpath`. -/
def orDot (s : String) : String :=
  if s = "" then "." else s

/-- One iteration of the component loop inside `posixpath.normpath`:
drops empty and `.` components, resolves `..` against the
accumulator. -/
def normpathStep (initialSlashes : Nat) (acc : List String)
    (comp : String) : List String :=
  if comp = "" ∨ comp = "." then acc
  else if comp ≠ ".." ∨ (initialSlashes = 0 ∧ acc = []) ∨
      acc.getLast? = some ".." then
    acc ++ [comp]
  else if acc ≠ [] then acc.dropLast
  else acc

/-- CPython `posixpath.normpath(path)`: collapses `//` and `/./`,
resolves `..` lexically, preserving the POSIX double-slash root. -/
def osPathNormpath (path : String) : String :=
  if path = "" then "."
  else
    let initialSlashes : Nat :=
      if pyStartsWith "/" path then
        if pyStartsWith "//" path ∧ ¬ pyStartsWith "///" path then 2 else 1
      else 0
    let newComps := (pySplitChar '/' path).foldl (normpathStep initialSlashes) []
    orDot (String.mk (List.replicate initialSlashes '/') ++ pyJoin "/" newComps)

/-- CPython `posixpath.abspath(path)` with the current working
directory as an explicit parameter: relative paths are joined to
`cwd`, then the result is normalized. -/
def osPathAbspath (cwd : String) (path : String) : String :=
  if pyStartsWith "/" path then osPathNormpath path
  else osPathNormpath (osPathJoin cwd path)

/-- The parts of the process environment that
`download_hf_directory`'s path computation reads: the current user's
home directory, the password database, and the current working
directory. -/
structure Env where
  home : Option String
  userdb : List (String × String)
  cwd : String
deriving DecidableEq, Repr

/-- The argument tuple that `download_hf_directory` passes to
`huggingface_hub.snapshot_download` (lines 46–52 of `hf_dl.py`). -/
structure SnapshotArgs where
  repo_id : String
  allow_patterns : List String
  local_dir : String
  token : Option String
  max_workers : Nat
deriving DecidableEq, Repr

/-- Lines 25–28 of `hf_dl.py`: when `local_dir` is `None`, derive it
from the repository id and directory with `/` replaced by `_`. -/
def effectiveLocalDir (repo_id directory : String)
    (local_dir : Option String) : String :=
  match local_dir with
  | none =>
    pyReplaceChar '/' '_' repo_id ++ "_" ++ pyReplaceChar '/' '_' directory
  | some d => d

/-- Lines 25–34 of `hf_dl.py`: the final `local_dir` value after the
optional `output_dir` is expanded, made absolute, and joined in front
of the (derived or explicit) directory name. -/
def resolvedLocalDir (env : Env) (repo_id directory : String)
    (local_dir output_dir : Option String) : String :=
  let ld := effectiveLocalDir repo_id directory local_dir
  match output_dir with
  | none => ld
  | some od =>
    osPathJoin (osPathAbspath env.cwd (osPathExpanduser env.home env.userdb od)) ld

/-- The complete argument tuple handed to `snapshot_download` by
`download_hf_directory` (lines 25–52 of `hf_dl.py`): resolved
destination, the two `allow_patterns` built from the slash-stripped
directory, and the pass-through `token` / `max_workers`. -/
def snapshotArgsOf (env : Env) (repo_id directory : String)
    (local_dir output_dir token : Option String) (max_workers : Nat) :
    SnapshotArgs :=
  let d := pyStrip '/' directory
  { repo_id := repo_id
    allow_patterns := [d ++ "/**/*", d ++ "/*"]
    local_dir := resolvedLocalDir env repo_id directory local_dir output_dir
    token := token
    max_workers := max_workers }

/-- A Python exception, classified the way `main`'s
`except ValueError` clause classifies it: a `ValueError` (or subclass,
e.g. `huggingface_hub`'s `HFValidationError`) versus any other
exception. -/
inductive PyExc where
  | valueError (msg : String)
  | otherError (msg : String)
deriving DecidableEq, Repr

/-- `str(e)` for a modelled exception. -/
def PyExc.msg : PyExc → String
  | valueError m => m
  | otherError m => m

/-- An observable step of the program: a line printed to stdout, the
argparse help text printed by `parser.print_help()`, or the (network)
call to `snapshot_download` with its arguments. -/
inductive Step where
  | printed (line : String)
  | helpPrinted
  | snapshotCall (args : SnapshotArgs)
deriving DecidableEq, Repr

/-- Whether a trace performs the network call. -/
def hasSnapshotCall (tr : List Step) : Bool :=
  tr.any fun s => match s with
    | Step.snapshotCall _ => true
    | _ => false

/-- `download_hf_directory` (lines 12–59 of `hf_dl.py`).  The external
`snapshot_download` is an injected function from its arguments to
either a returned path or a raised exception.  The result is the
ordered trace of observable steps together with the function's own
outcome (`Except.error` = the exception re-raised by the bare `raise`
on line 59, after the `except` clause prints the message). -/
def download_hf_directory (env : Env) (repo_id directory : String)
    (local_dir output_dir token : Option String) (max_workers : Nat)
    (transfer : SnapshotArgs → Except PyExc String) :
    List Step × Except PyExc String :=
  let args := snapshotArgsOf env repo_id directory local_dir output_dir token max_workers
  let d := pyStrip '/' directory
  let pre := [Step.printed
    ("Downloading from " ++ repo_id ++ "/" ++ d ++ "/ to " ++ args.local_dir)]
  match transfer args with
  | Except.ok p =>
    (pre ++ [Step.snapshotCall args,
      Step.printed ("Download completed! Files saved to: " ++ p)],
     Except.ok p)
  | Except.error e =>
    (pre ++ [Step.snapshotCall args,
      Step.printed ("Error downloading files: " ++ e.msg)],
     Except.error e)

/-- `main` (lines 95–147 of `hf_dl.py`) after argument parsing: the
URL (already through `urlparse`) and the four options are the parsed
`args`.  Returns the trace of observable steps and the process
outcome: `Except.ok ()` is a normal return from `main`,
`Except.error e` is an exception escaping `main` (abnormal process
termination).  The `except ValueError` clause catches a `ValueError`
raised either by `parse_hf_url` or by the download call and then
returns normally after printing the message and the help text. -/
def main_run (env : Env) (url : ParsedUrl)
    (local_dir output_dir token : Option String) (max_workers : Nat)
    (transfer : SnapshotArgs → Except PyExc String) :
    List Step × Except PyExc Unit :=
  match parse_hf_url url with
  | Except.error m =>
    ([Step.printed ("Error: " ++ m), Step.helpPrinted], Except.ok ())
  | Except.ok (repo_id, directory) =>
    if directory = "" then
      ([Step.printed "Error: Please specify a directory in the URL",
        Step.printed "Example: https://huggingface.co/username/repo-name/tree/main/models"],
       Except.ok ())
    else
      let pre := [Step.printed ("Repository: " ++ repo_id),
        Step.printed ("Directory: " ++ directory)]
      let dl := download_hf_directory env repo_id directory local_dir
        output_dir token max_workers transfer
      match dl.2 with
      | Except.ok _ => (pre ++ dl.1, Except.ok ())
      | Except.error (PyExc.valueError m) =>
        (pre ++ dl.1 ++ [Step.printed ("Error: " ++ m), Step.helpPrinted],
         Except.ok ())
      | Except.error (PyExc.otherError m) =>
        (pre ++ dl.1, Except.error (PyExc.otherError m))



namespace HfDl

example : parse_hf_url ⟨"https", "huggingface.co", "/acme/widgets/tree/main/vae/blocks", "", "", ""⟩
    = Except.ok ("acme/widgets", "vae/blocks") := rfl

example : parse_hf_url ⟨"https", "huggingface.co", "/acme/widgets/tree/main", "", "", ""⟩
    = Except.ok ("acme/widgets", "tree/main") := rfl

example : parse_hf_url ⟨"https", "huggingface.co", "/acme", "", "", ""⟩
    = Except.error "Invalid Hugging Face URL format" := rfl

example : parse_hf_url ⟨"https", "example.com", "/acme/widgets", "", "", ""⟩
    = Except.error "URL must be from huggingface.co" := rfl

example : parse_hf_url ⟨"https", "huggingface.co", "/acme/widgets", "", "", ""⟩
    = Except.ok ("acme/widgets", "") := rfl

end HfDl

/-- A transfer stub that always succeeds, returning path `p`. -/
def okTransfer (p : String) : SnapshotArgs → Except PyExc String :=
  fun _ => Except.ok p

/-- A transfer stub that always raises the exception `e`. -/
def failTransfer (e : PyExc) : SnapshotArgs → Except PyExc String :=
  fun _ => Except.error e

/-- `base` is a strict ancestor of `dest` as filesystem paths: `base`
(with a directory slash appended unless already present) is a proper
prefix of `dest`. -/
def isStrictAncestor (base dest : String) : Bool :=
  (if pyEndsWith "/" base then base else base ++ "/").data.isPrefixOf dest.data
    && (dest != (if pyEndsWith "/" base then base else base ++ "/"))

theorem strDataAppend (a b : String) : (a ++ b).data = a.data ++ b.data := by
  cases a; cases b; rfl

theorem dataNeNilOfNeEmpty {s : String} (h : s ≠ "") : s.data ≠ [] := by
  intro hd
  exact h (congrArg String.mk hd)

theorem appendNeSelfLeft (a b : String) (h : b ≠ "") : a ++ b ≠ a := by
  intro he
  apply dataNeNilOfNeEmpty h
  have hd : a.data ++ b.data = a.data := by
    have hc := congrArg String.data he
    rwa [strDataAppend] at hc
  have hl : a.data.length + b.data.length = a.data.length := by
    have := congrArg List.length hd
    simpa [List.length_append] using this
  have : b.data.length = 0 := by omega
  exact List.length_eq_zero.mp this

theorem isPrefixOfAppend (l m : List Char) : l.isPrefixOf (l ++ m) = true := by
  rw [List.isPrefixOf_iff_prefix]
  exact ⟨m, rfl⟩

theorem joinStrictAncestor (base ld : String) (hb : base ≠ "")
    (h1 : ld ≠ "") (h2 : pyStartsWith "/" ld = false) :
    isStrictAncestor base (osPathJoin base ld) = true := by
  have hld : ¬ (pyStartsWith "/" ld = true) := by rw [h2]; simp
  by_cases he : pyEndsWith "/" base = true
  · have hj : osPathJoin base ld = base ++ ld := by
      unfold osPathJoin
      rw [if_neg hld, if_pos (Or.inr he)]
    rw [hj]
    unfold isStrictAncestor
    rw [if_pos he, Bool.and_eq_true]
    constructor
    · rw [strDataAppend]
      exact isPrefixOfAppend _ _
    · rw [bne_iff_ne]
      exact appendNeSelfLeft base ld h1
  · have hj : osPathJoin base ld = base ++ "/" ++ ld := by
      unfold osPathJoin
      rw [if_neg hld, if_neg (by simp [hb, he])]
    rw [hj]
    unfold isStrictAncestor
    rw [if_neg he, Bool.and_eq_true]
    constructor
    · rw [show base ++ "/" ++ ld = (base ++ "/") ++ ld from rfl, strDataAppend]
      exact isPrefixOfAppend _ _
    · rw [bne_iff_ne]
      exact appendNeSelfLeft (base ++ "/") ld h1

theorem orDotNeEmpty (s : String) : orDot s ≠ "" := by
  unfold orDot
  split
  · decide
  · assumption

theorem osPathNormpathNeEmpty (p : String) : osPathNormpath p ≠ "" := by
  unfold osPathNormpath
  split
  · decide
  · exact orDotNeEmpty _

theorem osPathAbspathNeEmpty (cwd p : String) : osPathAbspath cwd p ≠ "" := by
  unfold osPathAbspath
  split <;> exact osPathNormpathNeEmpty _

example : osPathExpanduser (some "/home/u") [] "~/data" = "/home/u/data" := rfl
example : osPathExpanduser (some "/home/u") [("bob", "/home/bob")] "~bob/x" = "/home/bob/x" := rfl
example : osPathExpanduser none [] "~/data" = "~/data" := rfl
example : osPathExpanduser (some "/home/u") [] "/data" = "/data" := rfl
example : osPathAbspath "/cwd" "rel/x" = "/cwd/rel/x" := rfl
example : osPathAbspath "/cwd" "/a//b/./c/../d" = "/a/b/d" := rfl
example : osPathNormpath "" = "." := rfl
example : osPathNormpath "//x" = "//x" := rfl
example : osPathJoin "/base" "/abs" = "/abs" := rfl
example : (snapshotArgsOf ⟨none, [], "/cwd"⟩ "acme/widgets" "vae/blocks" none none none 2).local_dir
    = "acme_widgets_vae_blocks" := rfl
example : (snapshotArgsOf ⟨none, [], "/cwd"⟩ "acme/widgets" "vae/blocks" none none none 2).allow_patterns
    = ["vae/blocks/**/*", "vae/blocks/*"] := rfl
example : main_run ⟨none, [], "/cwd"⟩ ⟨"https", "huggingface.co", "/a/b", "", "", ""⟩ none none none 2
    (fun _ => Except.ok "p")
    = ([Step.printed "Error: Please specify a directory in the URL",
        Step.printed "Example: https://huggingface.co/username/repo-name/tree/main/models"],
       Except.ok ()) := rfl
example : (main_run ⟨none, [], "/cwd"⟩ ⟨"https", "huggingface.co", "/a/b/c", "", "", ""⟩ none none none 2
    (fun _ => Except.error (PyExc.valueError "boom"))).2 = Except.ok () := rfl
example : (main_run ⟨none, [], "/cwd"⟩ ⟨"https", "huggingface.co", "/a/b/c", "", "", ""⟩ none none none 2
    (fun _ => Except.error (PyExc.otherError "boom"))).2
    = Except.error (PyExc.otherError "boom") := rfl

end HfDl

namespace HfDl

/-- C1: for every URL whose host is `huggingface.co` and whose path,
after stripping slashes and splitting on `/`, yields more than 4
segments with `segments[2] = "tree"`, `parse_hf_url` returns
`(segments[0] ++ "/" ++ segments[1], segments[4:] joined by "/")`,
discarding the branch name `segments[3]`. -/
theorem parse_hf_url_branch_scoped (u : ParsedUrl) (parts : List String)
    (hn : u.netloc = "huggingface.co") (hp : pathParts u.path = parts)
    (hl : 4 < parts.length) (ht : parts.getD 2 "" = "tree") :
    parse_hf_url u =
      Except.ok (parts.getD 0 "" ++ "/" ++ parts.getD 1 "",
        pyJoin "/" (parts.drop 4)) := by
  have h2 : ¬ parts.length < 2 := by omega
  unfold parse_hf_url parseHfCore
  rw [hn, hp, if_pos rfl, if_neg h2, if_pos ⟨hl, ht⟩]

/-- Witness for C1 at the spec's end-to-end URL. -/
theorem parse_hf_url_branch_scoped_witness :
    parse_hf_url ⟨"https", "huggingface.co", "/acme/widgets/tree/main/vae/blocks", "", "", ""⟩ =
      Except.ok (["acme", "widgets", "tree", "main", "vae", "blocks"].getD 0 "" ++ "/" ++
          ["acme", "widgets", "tree", "main", "vae", "blocks"].getD 1 "",
        pyJoin "/" (["acme", "widgets", "tree", "main", "vae", "blocks"].drop 4)) :=
  parse_hf_url_branch_scoped
    ⟨"https", "huggingface.co", "/acme/widgets/tree/main/vae/blocks", "", "", ""⟩
    ["acme", "widgets", "tree", "main", "vae", "blocks"] rfl rfl
    (by decide) (by decide)

/-- C2: a huggingface.co URL whose stripped path is exactly
`[ns, repo, "tree", branch]` (4 segments) falls into the
`len > 2` branch, so the returned directory is `"tree/" ++ branch`. -/
theorem parse_hf_url_four_segments (u : ParsedUrl) (ns repo branch : String)
    (hn : u.netloc = "huggingface.co")
    (hp : pathParts u.path = [ns, repo, "tree", branch]) :
    parse_hf_url u = Except.ok (ns ++ "/" ++ repo, "tree/" ++ branch) := by
  unfold parse_hf_url parseHfCore
  rw [hn, hp, if_pos rfl, if_neg (by simp), if_neg (by simp),
    if_pos (by simp)]
  rfl

/-- Witness for C2. -/
theorem parse_hf_url_four_segments_witness :
    parse_hf_url ⟨"https", "huggingface.co", "/acme/widgets/tree/main", "", "", ""⟩ =
      Except.ok ("acme" ++ "/" ++ "widgets", "tree/" ++ "main") :=
  parse_hf_url_four_segments
    ⟨"https", "huggingface.co", "/acme/widgets/tree/main", "", "", ""⟩
    "acme" "widgets" "main" rfl rfl

/-- C3: `parse_hf_url` raises `ValueError` exactly when the host is
not `huggingface.co` or the stripped path has fewer than 2 segments;
in every other case it returns a `(repo_id, directory)` pair. -/
theorem parse_hf_url_error_iff (u : ParsedUrl) :
    ((∃ m, parse_hf_url u = Except.error m) ↔
      (u.netloc ≠ "huggingface.co" ∨ (pathParts u.path).length < 2)) ∧
    (u.netloc = "huggingface.co" → ¬ (pathParts u.path).length < 2 →
      ∃ p, parse_hf_url u = Except.ok p) := by
  unfold parse_hf_url parseHfCore
  by_cases h1 : u.netloc = "huggingface.co" <;>
    by_cases h2 : (pathParts u.path).length < 2 <;>
    simp [h1, h2]

/-- Witness for C3's conditional conjunct at a concrete accepted URL. -/
theorem parse_hf_url_error_iff_witness :
    ∃ p, parse_hf_url ⟨"https", "huggingface.co", "/a/b/c", "", "", ""⟩ =
      Except.ok p :=
  (parse_hf_url_error_iff ⟨"https", "huggingface.co", "/a/b/c", "", "", ""⟩).2
    rfl (by decide)

/-- C10: `parse_hf_url` depends only on the `netloc` and `path`
components of the parsed URL: two parses agreeing on those two
components (however they differ in scheme, params, query or fragment)
yield identical results. -/
theorem parse_hf_url_scheme_irrelevant (u v : ParsedUrl)
    (hn : u.netloc = v.netloc) (hp : u.path = v.path) :
    parse_hf_url u = parse_hf_url v := by
  unfold parse_hf_url
  rw [hn, hp]

/-- Witness for C10: `http` with query/fragment versus bare `https`. -/
theorem parse_hf_url_scheme_irrelevant_witness :
    parse_hf_url ⟨"http", "huggingface.co", "/a/b/c", "p", "q=1", "frag"⟩ =
      parse_hf_url ⟨"https", "huggingface.co", "/a/b/c", "", "", ""⟩ :=
  parse_hf_url_scheme_irrelevant
    ⟨"http", "huggingface.co", "/a/b/c", "p", "q=1", "frag"⟩
    ⟨"https", "huggingface.co", "/a/b/c", "", "", ""⟩ rfl rfl

/-- C5: with no explicit `local_dir`, the destination folder name is
the repository id with `/` replaced by `_`, then `_`, then the
directory with `/` replaced by `_` — independent of the process
environment, hence deterministic; concretely
`acme/widgets` + `vae/blocks` gives `acme_widgets_vae_blocks`. -/
theorem default_local_dir_derivation (env : Env) (repo_id directory : String)
    (token : Option String) (max_workers : Nat) :
    (snapshotArgsOf env repo_id directory none none token max_workers).local_dir
      = pyReplaceChar '/' '_' repo_id ++ "_" ++ pyReplaceChar '/' '_' directory ∧
    (snapshotArgsOf env "acme/widgets" "vae/blocks" none none token
        max_workers).local_dir
      = "acme_widgets_vae_blocks" :=
  ⟨rfl, rfl⟩

/-- C6: for a directory whose slash-stripped form `d` is non-empty,
the `allow_patterns` list passed to `snapshot_download` is exactly the
two distinct patterns `d ++ "/**/*"` and `d ++ "/*"`. -/
theorem allow_patterns_exactly_two (env : Env) (repo_id directory : String)
    (local_dir output_dir token : Option String) (max_workers : Nat)
    (hne : pyStrip '/' directory ≠ "") :
    (snapshotArgsOf env repo_id directory local_dir output_dir token
        max_workers).allow_patterns
      = [pyStrip '/' directory ++ "/**/*", pyStrip '/' directory ++ "/*"] ∧
    pyStrip '/' directory ++ "/*" ≠ pyStrip '/' directory ++ "/**/*" := by
  refine ⟨rfl, fun h => ?_⟩
  have hd := congrArg String.data h
  rw [strDataAppend, strDataAppend] at hd
  have := congrArg List.length hd
  simp [List.length_append] at this

/-- Witness for C6. -/
theorem allow_patterns_exactly_two_witness :
    pyStrip '/' "vae/blocks" ≠ "" ∧
    ((snapshotArgsOf ⟨none, [], "/cwd"⟩ "acme/widgets" "vae/blocks" none none
        none 2).allow_patterns
      = [pyStrip '/' "vae/blocks" ++ "/**/*", pyStrip '/' "vae/blocks" ++ "/*"] ∧
    pyStrip '/' "vae/blocks" ++ "/*" ≠ pyStrip '/' "vae/blocks" ++ "/**/*") :=
  ⟨by decide,
   allow_patterns_exactly_two ⟨none, [], "/cwd"⟩ "acme/widgets" "vae/blocks"
     none none none 2 (by decide)⟩

end HfDl

namespace HfDl

/-- C4: when `parse_hf_url` accepts the URL but returns an empty
directory, `main` prints the two guidance lines and returns normally,
never invoking `download_hf_directory` or the transfer operation
(whatever the transfer stub would do). -/
theorem main_aborts_on_empty_directory (env : Env) (url : ParsedUrl)
    (local_dir output_dir token : Option String) (max_workers : Nat)
    (transfer : SnapshotArgs → Except PyExc String) (repo_id : String)
    (hp : parse_hf_url url = Except.ok (repo_id, "")) :
    main_run env url local_dir output_dir token max_workers transfer
      = ([Step.printed "Error: Please specify a directory in the URL",
          Step.printed "Example: https://huggingface.co/username/repo-name/tree/main/models"],
         Except.ok ()) ∧
    hasSnapshotCall
      (main_run env url local_dir output_dir token max_workers transfer).1
      = false := by
  unfold main_run
  rw [hp]
  exact ⟨rfl, rfl⟩

/-- Witness for C4 at the two-segment URL `/a/b`. -/
theorem main_aborts_on_empty_directory_witness :
    parse_hf_url ⟨"https", "huggingface.co", "/a/b", "", "", ""⟩
      = Except.ok ("a/b", "") ∧
    (main_run ⟨none, [], "/cwd"⟩ ⟨"https", "huggingface.co", "/a/b", "", "", ""⟩
        none none none 2 (okTransfer "p")
      = ([Step.printed "Error: Please specify a directory in the URL",
          Step.printed "Example: https://huggingface.co/username/repo-name/tree/main/models"],
         Except.ok ()) ∧
    hasSnapshotCall
      (main_run ⟨none, [], "/cwd"⟩ ⟨"https", "huggingface.co", "/a/b", "", "", ""⟩
        none none none 2 (okTransfer "p")).1 = false) :=
  ⟨rfl, main_aborts_on_empty_directory ⟨none, [], "/cwd"⟩
    ⟨"https", "huggingface.co", "/a/b", "", "", ""⟩ none none none 2
    (okTransfer "p") "a/b" rfl⟩

/-- C8 counterexample: on a URL naming a repository but no directory,
`main` prints the guidance lines but never prints the argparse help
text (`parser.print_help()` runs only in the `except` branch). -/
theorem missing_directory_prints_no_help :
    Step.helpPrinted ∉
      (main_run ⟨none, [], "/cwd"⟩ ⟨"https", "huggingface.co", "/a/b", "", "", ""⟩
        none none none 2 (okTransfer "p")).1 := by
  decide

/-- C8 (amended): on a malformed URL `main` prints the `ValueError`
message and the help text; on a missing directory it prints the
guidance line and an example-usage line (no help text); both paths
return normally without any network call. -/
theorem main_error_paths (env : Env) (url : ParsedUrl)
    (local_dir output_dir token : Option String) (max_workers : Nat)
    (transfer : SnapshotArgs → Except PyExc String) :
    (∀ m, parse_hf_url url = Except.error m →
      main_run env url local_dir output_dir token max_workers transfer
        = ([Step.printed ("Error: " ++ m), Step.helpPrinted], Except.ok ()) ∧
      hasSnapshotCall
        (main_run env url local_dir output_dir token max_workers transfer).1
        = false) ∧
    (∀ repo_id, parse_hf_url url = Except.ok (repo_id, "") →
      main_run env url local_dir output_dir token max_workers transfer
        = ([Step.printed "Error: Please specify a directory in the URL",
            Step.printed "Example: https://huggingface.co/username/repo-name/tree/main/models"],
           Except.ok ()) ∧
      hasSnapshotCall
        (main_run env url local_dir output_dir token max_workers transfer).1
        = false) := by
  constructor
  · intro m hm
    unfold main_run
    rw [hm]
    exact ⟨rfl, rfl⟩
  · intro r hr
    unfold main_run
    rw [hr]
    exact ⟨rfl, rfl⟩

/-- Witness for C8's theorem at a wrong-host URL. -/
theorem main_error_paths_witness :
    main_run ⟨none, [], "/cwd"⟩ ⟨"https", "example.com", "/a/b", "", "", ""⟩
        none none none 2 (okTransfer "p")
      = ([Step.printed ("Error: " ++ "URL must be from huggingface.co"),
          Step.helpPrinted], Except.ok ()) :=
  ((main_error_paths ⟨none, [], "/cwd"⟩ ⟨"https", "example.com", "/a/b", "", "", ""⟩
      none none none 2 (okTransfer "p")).1
    "URL must be from huggingface.co" rfl).1

/-- C9 counterexample: a `ValueError` raised by the transfer call is
printed and re-raised by `download_hf_directory`, but `main`'s
`except ValueError` handler then catches it, prints it with the help
text, and returns — normal process termination, not propagation. -/
theorem transfer_value_error_swallowed :
    (download_hf_directory ⟨none, [], "/cwd"⟩ "a/b" "c" none none none 2
        (failTransfer (PyExc.valueError "boom"))).2
      = Except.error (PyExc.valueError "boom") ∧
    (main_run ⟨none, [], "/cwd"⟩ ⟨"https", "huggingface.co", "/a/b/c", "", "", ""⟩
        none none none 2 (failTransfer (PyExc.valueError "boom"))).2
      = Except.ok () ∧
    Step.helpPrinted ∈ (main_run ⟨none, [], "/cwd"⟩
        ⟨"https", "huggingface.co", "/a/b/c", "", "", ""⟩
        none none none 2 (failTransfer (PyExc.valueError "boom"))).1 := by
  refine ⟨rfl, rfl, ?_⟩
  decide

/-- C9 (amended): every exception raised by the transfer call is
logged with its message and re-raised by `download_hf_directory`; if
it is not a `ValueError`, it escapes `main` and the process terminates
abnormally with that cause, while a `ValueError` is caught by `main`'s
URL-error handler and the process terminates normally. -/
theorem transfer_error_propagation (env : Env) (url : ParsedUrl)
    (local_dir output_dir token : Option String) (max_workers : Nat)
    (e : PyExc) (transfer : SnapshotArgs → Except PyExc String)
    (htr : ∀ a, transfer a = Except.error e)
    (repo_id directory : String)
    (hp : parse_hf_url url = Except.ok (repo_id, directory))
    (hd : directory ≠ "") :
    (download_hf_directory env repo_id directory local_dir output_dir token
        max_workers transfer).2 = Except.error e ∧
    Step.printed ("Error downloading files: " ++ e.msg)
      ∈ (download_hf_directory env repo_id directory local_dir output_dir token
          max_workers transfer).1 ∧
    (∀ m, e = PyExc.otherError m →
      (main_run env url local_dir output_dir token max_workers transfer).2
        = Except.error e) ∧
    (∀ m, e = PyExc.valueError m →
      (main_run env url local_dir output_dir token max_workers transfer).2
        = Except.ok ()) := by
  refine ⟨?_, ?_, ?_, ?_⟩
  · unfold download_hf_directory
    simp [htr]
  · unfold download_hf_directory
    simp [htr]
  · intro m hm
    subst hm
    unfold main_run download_hf_directory
    rw [hp]
    simp [hd, htr]
  · intro m hm
    subst hm
    unfold main_run download_hf_directory
    rw [hp]
    simp [hd, htr]

/-- Witness for C9's theorem with a non-`ValueError` exception. -/
theorem transfer_error_propagation_witness :
    (download_hf_directory ⟨none, [], "/cwd"⟩ "a/b" "c" none none none 2
        (failTransfer (PyExc.otherError "boom"))).2
      = Except.error (PyExc.otherError "boom") ∧
    Step.printed ("Error downloading files: " ++ (PyExc.otherError "boom").msg)
      ∈ (download_hf_directory ⟨none, [], "/cwd"⟩ "a/b" "c" none none none 2
          (failTransfer (PyExc.otherError "boom"))).1 ∧
    (main_run ⟨none, [], "/cwd"⟩ ⟨"https", "huggingface.co", "/a/b/c", "", "", ""⟩
        none none none 2 (failTransfer (PyExc.otherError "boom"))).2
      = Except.error (PyExc.otherError "boom") :=
  let h := transfer_error_propagation ⟨none, [], "/cwd"⟩
    ⟨"https", "huggingface.co", "/a/b/c", "", "", ""⟩ none none none 2
    (PyExc.otherError "boom") (failTransfer (PyExc.otherError "boom"))
    (fun _ => rfl) "a/b" "c" rfl (by decide)
  ⟨h.1, h.2.1, h.2.2.1 "boom" rfl⟩

/-- C7 counterexample: with `outputBaseDir = "/base"` and the absolute
`localDirName = "/abs"`, `os.path.join` discards the base entirely, so
the resolved base is not a strict ancestor of the destination. -/
theorem output_dir_not_ancestor_absolute_local_dir :
    (snapshotArgsOf ⟨some "/home/u", [], "/cwd"⟩ "acme/widgets" "vae"
        (some "/abs") (some "/base") none 2).local_dir = "/abs" ∧
    isStrictAncestor
      (osPathAbspath "/cwd" (osPathExpanduser (some "/home/u") [] "/base"))
      ((snapshotArgsOf ⟨some "/home/u", [], "/cwd"⟩ "acme/widgets" "vae"
          (some "/abs") (some "/base") none 2).local_dir) = false :=
  ⟨rfl, rfl⟩

/-- C7 (amended): when `outputBaseDir` is supplied, the destination is
`abspath(expanduser(outputBaseDir))` joined with the derived or
explicit local directory name, and whenever that name is non-empty and
not an absolute path the resolved base is a strict ancestor of the
destination (an absolute name instead replaces the base, by
`os.path.join` semantics; the derived name never starts with `/`). -/
theorem output_dir_strict_ancestor (env : Env) (repo_id directory od : String)
    (local_dir token : Option String) (max_workers : Nat)
    (h1 : effectiveLocalDir repo_id directory local_dir ≠ "")
    (h2 : pyStartsWith "/" (effectiveLocalDir repo_id directory local_dir)
      = false) :
    (snapshotArgsOf env repo_id directory local_dir (some od) token
        max_workers).local_dir
      = osPathJoin
          (osPathAbspath env.cwd (osPathExpanduser env.home env.userdb od))
          (effectiveLocalDir repo_id directory local_dir) ∧
    isStrictAncestor
      (osPathAbspath env.cwd (osPathExpanduser env.home env.userdb od))
      ((snapshotArgsOf env repo_id directory local_dir (some od) token
          max_workers).local_dir) = true := by
  refine ⟨rfl, ?_⟩
  exact joinStrictAncestor
    (osPathAbspath env.cwd (osPathExpanduser env.home env.userdb od))
    (effectiveLocalDir repo_id directory local_dir)
    (osPathAbspathNeEmpty _ _) h1 h2

/-- Witness for C7's theorem: `outputBaseDir = "~/data"` with the
derived local directory name. -/
theorem output_dir_strict_ancestor_witness :
    effectiveLocalDir "acme/widgets" "vae" none ≠ "" ∧
    pyStartsWith "/" (effectiveLocalDir "acme/widgets" "vae" none) = false ∧
    ((snapshotArgsOf ⟨some "/home/u", [], "/cwd"⟩ "acme/widgets" "vae" none
        (some "~/data") none 2).local_dir
      = osPathJoin
          (osPathAbspath "/cwd" (osPathExpanduser (some "/home/u") [] "~/data"))
          (effectiveLocalDir "acme/widgets" "vae" none) ∧
    isStrictAncestor
      (osPathAbspath "/cwd" (osPathExpanduser (some "/home/u") [] "~/data"))
      ((snapshotArgsOf ⟨some "/home/u", [], "/cwd"⟩ "acme/widgets" "vae" none
          (some "~/data") none 2).local_dir) = true) :=
  ⟨by decide, by decide,
   output_dir_strict_ancestor ⟨some "/home/u", [], "/cwd"⟩ "acme/widgets" "vae"
     "~/data" none none 2 (by decide) (by decide)⟩

end HfDl
